import Mathlib

/-!
Verification of the clans HTTP service (`src/app.py`, `src/config.py`).

The service is a small Flask application backed by a pooled MySQL connection.
We give a shallow embedding of its four request handlers (`create_clan`,
`get_clans`, `get_clan`, `delete_clan`) and of the per-request connection
lifecycle (`get_db` / `close_db`), and prove properties of that embedding.

Modelling conventions:
- JSON values are the inductive `Json`; Python truthiness is `Json.truthy`.
- The database table is a `List Clan` in storage (insertion) order; the SQL
  `ORDER BY` of the engine is modelled by a stable insertion sort, and the
  `WHERE` clauses by `List.filter` / `List.find?`.
- `MySQL DATETIME` values are the `Timestamp` structure; Python's
  `datetime.isoformat()` on naive datetimes is `Timestamp.isoformat`.
- Storage faults are injected through `FaultPoint`; the Python semantics of
  `try`/`except` with possibly-unbound locals is made explicit.
-/

/-- JSON values, as produced by Flask's `request.get_json()`. Numbers are
modelled as integers (only integer literals matter for the properties here). -/
inductive Json where
  | null
  | bool (b : Bool)
  | num (n : Int)
  | str (s : String)
  | arr (xs : List Json)
  | obj (kvs : List (String × Json))
deriving Repr

/-- Python truthiness of a JSON value: `None`, `False`, `0`, `""`, `[]` and
`{}` are falsy, everything else truthy. Used by `if not data or not
data.get('name')` in `create_clan` (src/app.py line 89). -/
def Json.truthy : Json → Bool
  | .null => false
  | .bool b => b
  | .num n => n != 0
  | .str s => !s.isEmpty
  | .arr xs => !xs.isEmpty
  | .obj kvs => !kvs.isEmpty

/-- A MySQL `DATETIME`/`TIMESTAMP` value as returned by the connector: a naive
Python `datetime` with the listed fields (src/app.py stores `UTC_TIMESTAMP()`). -/
structure Timestamp where
  year : Nat
  month : Nat
  day : Nat
  hour : Nat
  minute : Nat
  second : Nat
  microsecond : Nat
deriving Repr, DecidableEq

/-- Lexicographic less-or-equal on lists of naturals; the chronological order
of `Timestamp` fields is lexicographic, which is how the storage engine
compares `DATETIME` values in `ORDER BY created_at`. -/
def lexLe : List Nat → List Nat → Bool
  | [], _ => true
  | _ :: _, [] => false
  | a :: as, b :: bs => a < b || (a == b && lexLe as bs)

/-- The field list of a timestamp, most significant first. -/
def Timestamp.fields (t : Timestamp) : List Nat :=
  [t.year, t.month, t.day, t.hour, t.minute, t.second, t.microsecond]

/-- Chronological comparison of two storage timestamps. -/
def Timestamp.le (a b : Timestamp) : Bool :=
  lexLe a.fields b.fields

/-- Zero-padding to two digits, as in `datetime.isoformat` (`%02d`). -/
def pad2 (n : Nat) : String :=
  (if n < 10 then "0" else "") ++ toString n

/-- Zero-padding to four digits (`%04d`); for `n < 10000` this is the
hundreds block followed by the remainder block. -/
def pad4 (n : Nat) : String :=
  pad2 (n / 100) ++ pad2 (n % 100)

/-- Zero-padding to six digits (`%06d`), used for microseconds. -/
def pad6 (n : Nat) : String :=
  pad2 (n / 10000) ++ pad2 (n / 100 % 100) ++ pad2 (n % 100)

/-- Modelled from Python's `datetime.isoformat()` on a naive datetime:
`YYYY-MM-DDTHH:MM:SS`, with `.ffffff` appended exactly when the microsecond
field is nonzero, and no UTC offset (the datetime carries no tzinfo). Used at
src/app.py lines 143 and 170. -/
def Timestamp.isoformat (t : Timestamp) : String :=
  pad4 t.year ++ "-" ++ pad2 t.month ++ "-" ++ pad2 t.day ++ "T" ++
  pad2 t.hour ++ ":" ++ pad2 t.minute ++ ":" ++ pad2 t.second ++
  (if t.microsecond == 0 then "" else "." ++ pad6 t.microsecond)

/-- Serialization of `created_at` used by the list and get-by-id handlers:
`clan['created_at'].isoformat() + 'Z'` (src/app.py lines 143 and 170). -/
def renderCreatedAt (t : Timestamp) : String :=
  t.isoformat ++ "Z"

/-- A row of the `clans` table (schema: `id` text primary key, `name` text not
null, `region` text nullable, `created_at` datetime not null). -/
structure Clan where
  id : String
  name : String
  region : Option String
  created_at : Timestamp
deriving Repr, DecidableEq

/-- The nullable `region` column serialized to JSON. -/
def renderRegion : Option String → Json
  | none => Json.null
  | some r => Json.str r

/-- A clan row as the JSON object returned by the list and get-by-id handlers. -/
def renderClan (c : Clan) : Json :=
  Json.obj [("id", Json.str c.id), ("name", Json.str c.name),
    ("region", renderRegion c.region),
    ("created_at", Json.str (renderCreatedAt c.created_at))]

/-- The standard error body `\x7b"error": msg\x7d`. -/
def errBody (msg : String) : Json :=
  Json.obj [("error", Json.str msg)]

/-- Insert an element into a list, before the first element it compares
less-or-equal to. Building block of the model of SQL `ORDER BY`. -/
def insertSorted {α : Type} (le : α → α → Bool) (a : α) : List α → List α
  | [] => [a]
  | b :: bs => if le a b then a :: b :: bs else b :: insertSorted le a bs

/-- Stable insertion sort, modelling the engine's ascending `ORDER BY`. -/
def sortBy {α : Type} (le : α → α → Bool) : List α → List α
  | [] => []
  | a :: as => insertSorted le a (sortBy le as)

/-- Row comparison for the resolved sort column: by `name` when the column is
`name`, otherwise chronologically by `created_at`. -/
def clanLe (sortCol : String) (a b : Clan) : Bool :=
  if sortCol == "name" then decide (a.name ≤ b.name)
  else Timestamp.le a.created_at b.created_at

/-- The `WHERE region = %s` filter of the list handler: applied only when the
`region` query parameter is present and truthy (nonempty), `if region:` at
src/app.py line 131. -/
def regionFiltered (db : List Clan) (region : Option String) : List Clan :=
  match region with
  | some r => if r.isEmpty then db else db.filter (fun c => c.region == some r)
  | none => db

/-- The rows produced by the list handler `get_clans` (src/app.py lines
119-145): `sort` defaults to `"created_at"` when absent (line 122), the region
filter is applied when the parameter is truthy (lines 131-133), and an
`ORDER BY` on the resolved column is appended only when `sort` is in the
allow-list `['created_at', 'name']` (lines 135-136); otherwise the rows come
back in storage order. -/
def get_clans (db : List Clan) (region : Option String) (sortArg : Option String) :
    List Clan :=
  let sort := sortArg.getD "created_at"
  let rows := regionFiltered db region
  if sort == "created_at" || sort == "name" then sortBy (clanLe sort) rows
  else rows

/-- The SQL text and bound parameters built by the list handler (src/app.py
lines 128-136). Only the allow-listed column name is ever concatenated into
the text; the region value travels in the parameter list. -/
def buildListQuery (region : Option String) (sortArg : Option String) :
    String × List String :=
  let sort := sortArg.getD "created_at"
  let q0 := "SELECT id, name, region, created_at FROM clans"
  let qp := match region with
    | some r => if r.isEmpty then (q0, []) else (q0 ++ " WHERE region = %s", [r])
    | none => (q0, ([] : List String))
  if sort == "created_at" || sort == "name" then
    (qp.1 ++ " ORDER BY " ++ sort, qp.2)
  else qp

/-- The statement issued by the create handler (src/app.py lines 98-101):
constant SQL text, all client-supplied values bound as parameters. -/
def createStmt (clan_id : String) (name region : Json) : String × List Json :=
  ("INSERT INTO clans (id, name, region, created_at) VALUES (%s, %s, %s, UTC_TIMESTAMP())",
   [Json.str clan_id, name, region])

/-- The statement issued by the get-by-id handler (src/app.py lines 161-164). -/
def getStmt (id : String) : String × List String :=
  ("SELECT id, name, region, created_at FROM clans WHERE id = %s", [id])

/-- The statement issued by the delete handler (src/app.py lines 187-190). -/
def deleteStmt (id : String) : String × List String :=
  ("DELETE FROM clans WHERE id = %s", [id])

/-- The get-by-id handler `get_clan` (src/app.py lines 155-171): fetch the row
matching the identifier; 404 when none, otherwise 200 with the rendered row. -/
def get_clanResponse (db : List Clan) (id : String) : Nat × Json :=
  match db.find? (fun c => c.id == id) with
  | none => (404, errBody "Clan not found")
  | some c => (200, renderClan c)

/-- The delete handler `delete_clan` (src/app.py lines 181-197): execute the
`DELETE`, then inspect `cursor.rowcount`; zero rows affected gives 404 with no
commit (and hence no state change), otherwise the deletion is committed and
200 returned. Result: (status, body) and the table afterwards. -/
def delete_clan (db : List Clan) (id : String) : (Nat × Json) × List Clan :=
  let affected := db.countP (fun c => c.id == id)
  if affected == 0 then ((404, errBody "Clan not found"), db)
  else ((200, Json.obj [("message", Json.str "Clan deleted successfully")]),
        db.filter (fun c => !(c.id == id)))

/-- Outcome of the input-validation prefix of the create handler (src/app.py
lines 88-90): `data = request.get_json()` (`none` when the body is missing or
not valid JSON), then `if not data or not data.get('name')` rejects with 400.
A truthy body that is not a JSON object would make `data.get` raise
`AttributeError` (`typeErr`). On acceptance the values later bound for the
`name` and `region` insert parameters are recorded (`data['name']`,
`data.get('region')`, src/app.py line 101). -/
inductive ValidationOutcome where
  | rejected
  | typeErr
  | accepted (name : Json) (region : Json)
deriving Repr

/-- The validation prefix of `create_clan` (src/app.py lines 88-90), see
`ValidationOutcome`. -/
def validateCreate (body : Option Json) : ValidationOutcome :=
  match body with
  | none => .rejected
  | some d =>
    if !d.truthy then .rejected
    else match d with
      | .obj kvs =>
        match List.lookup "name" kvs with
        | none => .rejected
        | some nv =>
          if !nv.truthy then .rejected
          else .accepted nv ((List.lookup "region" kvs).getD Json.null)
      | _ => .typeErr

/-- Modelled from the mysql.connector driver's parameter conversion, an
external collaborator: Python scalars convert to SQL values (`None` to NULL,
`str` to the text itself, `int` to its decimal text, `bool` to 0/1); lists and
dicts are not convertible and make the driver raise. The result is `none` on a
non-convertible value, otherwise `some` of the nullable stored text. -/
def sqlScalar : Json → Option (Option String)
  | .null => some none
  | .str s => some (some s)
  | .num n => some (some (toString n))
  | .bool b => some (some (if b then "1" else "0"))
  | .arr _ => none
  | .obj _ => none

/-- Full outcome of a create request: the HTTP response (`none` when the
handler itself raised, e.g. `AttributeError` on a truthy non-object body), the
table afterwards, and whether storage was touched at all. -/
structure CreateOutcome where
  response : Option (Nat × Json)
  db : List Clan
  storageAccessed : Bool
deriving Repr

/-- The create handler `create_clan` (src/app.py lines 86-116) on a healthy
storage backend: validate (lines 88-90, before any storage access), then
insert a row with the generated identifier `freshId`, the bound `name` and
`region` parameters, and the server-side `UTC_TIMESTAMP()` (modelled by
`now`), commit, and respond 201. A bound parameter the driver cannot convert
raises inside `execute`, is caught, rolled back, and answered 500 (lines
110-113). -/
def create_clan (body : Option Json) (freshId : String) (now : Timestamp)
    (db : List Clan) : CreateOutcome :=
  match validateCreate body with
  | .rejected => ⟨some (400, errBody "Clan name is required"), db, false⟩
  | .typeErr => ⟨none, db, false⟩
  | .accepted nv rv =>
    match sqlScalar nv, sqlScalar rv with
    | some (some nameText), some regionVal =>
      ⟨some (201, Json.obj [("id", Json.str freshId),
          ("message", Json.str "Clan created successfully")]),
       db ++ [⟨freshId, nameText, regionVal, now⟩], true⟩
    | some none, _ =>
      -- a truthy name never converts to NULL; unreachable but kept total
      ⟨some (500, errBody "Database operation failed"), db, true⟩
    | none, _ | _, none =>
      ⟨some (500, errBody "Database operation failed"), db, true⟩

/-- Point at which an injected storage fault (a `mysql.connector.Error`)
strikes inside the `try` block of a write handler: acquiring the pooled
connection (`db = get_db()`), opening the cursor (`db.cursor()`), or executing
the statement (`cursor.execute`). `healthy` means no fault. -/
inductive FaultPoint where
  | healthy
  | atConnect
  | atCursor
  | atExecute
deriving Repr, DecidableEq

/-- Result of a write handler under an injected storage fault. `handled` is a
JSON response produced by the handler's own `except` clause, with the flag
recording whether `db.rollback()` ran; `unboundLocalError` is the secondary
exception escaping the `except` clause itself, which the framework turns into
its generic 500 page, not the handler's JSON body. -/
inductive FaultResult where
  | success
  | handled (status : Nat) (body : Json) (rolledBack : Bool)
  | unboundLocalError
deriving Repr

/-- The `try`/`except` structure shared by `create_clan` (src/app.py lines
94-116) and `delete_clan` (lines 183-205) under an injected storage fault,
mirroring Python local-variable semantics: the local `db` is bound only once
`db = get_db()` has returned, so when the fault strikes at connection
acquisition the `except` clause's `db.rollback()` (lines 111 and 200) itself
raises `UnboundLocalError`; when the fault strikes later, `db` is bound, the
rollback runs, and the clause returns the 500 JSON body. -/
def writeHandlerOnFault (f : FaultPoint) : FaultResult :=
  let dbBound := f != FaultPoint.atConnect
  if f == FaultPoint.healthy then .success
  else if dbBound then .handled 500 (errBody "Database operation failed") true
  else .unboundLocalError

/-- The Flask application-context store `g`, holding at most the request's
cached connection (src/app.py lines 22-31). Connections are identified by the
number the pool handed them out with. -/
structure GCtx where
  db_conn : Option Nat
deriving Repr, DecidableEq

/-- The connection pool, an external collaborator: `nextConn` identifies the
connection the next acquisition returns, `checkedOut` the connections
currently out of the pool. -/
structure PoolState where
  nextConn : Nat
  checkedOut : List Nat
deriving Repr, DecidableEq

/-- `get_db` (src/app.py lines 22-25): acquire a pooled connection only when
`g` holds none yet, cache it in `g`, and return the cached one thereafter. -/
def get_db (g : GCtx) (p : PoolState) : Nat × GCtx × PoolState :=
  match g.db_conn with
  | some c => (c, g, p)
  | none => (p.nextConn, ⟨some p.nextConn⟩,
             ⟨p.nextConn + 1, p.nextConn :: p.checkedOut⟩)

/-- `close_db` (src/app.py lines 27-31), the `teardown_appcontext` hook: pop
the cached connection from `g` and close it, which for a pooled connection
returns it to the pool. Flask runs this hook on every exit path of the
request, including unhandled exceptions. -/
def close_db (g : GCtx) (p : PoolState) : GCtx × PoolState :=
  match g.db_conn with
  | some c => (⟨none⟩, ⟨p.nextConn, p.checkedOut.erase c⟩)
  | none => (g, p)

/-- A handler body that calls `get_db` a total of `n` times (every handler
calls it at most a few times; `n` is arbitrary). Returns the list of
connections the calls handed back, the final `g`, and the final pool. -/
def runHandlerCalls : Nat → GCtx → PoolState → List Nat × GCtx × PoolState
  | 0, g, p => ([], g, p)
  | n + 1, g, p =>
    let r := get_db g p
    let rest := runHandlerCalls n r.2.1 r.2.2
    (r.1 :: rest.1, rest.2)

/-- One full request against a fresh application context: the handler body
performs its `get_db` calls, then the teardown hook runs unconditionally. -/
def runRequest (n : Nat) (p : PoolState) : PoolState :=
  let r := runHandlerCalls n ⟨none⟩ p
  (close_db r.2.1 r.2.2).2

/-- One slot of a character-level pattern: a decimal digit, or a fixed
literal character. -/
inductive PatItem where
  | digit
  | lit (c : Char)
deriving Repr, DecidableEq

/-- Match a character list against a pattern, slot by slot, requiring equal
length. -/
def checkPattern : List Char → List PatItem → Bool
  | [], [] => true
  | c :: cs, .digit :: ps => c.isDigit && checkPattern cs ps
  | c :: cs, .lit l :: ps => (c == l) && checkPattern cs ps
  | _, _ => false

/-- The pattern `YYYY-MM-DDTHH:MM:SS`, taken from the interface description in
the specification. -/
def isoCorePattern : List PatItem :=
  [.digit, .digit, .digit, .digit, .lit '-', .digit, .digit, .lit '-',
   .digit, .digit, .lit 'T', .digit, .digit, .lit ':', .digit, .digit,
   .lit ':', .digit, .digit]

/-- The fractional-seconds block `.ffffff`. -/
def isoFracPattern : List PatItem :=
  [.lit '.', .digit, .digit, .digit, .digit, .digit, .digit]

/-- Specification-side format check: the string is `YYYY-MM-DDTHH:MM:SS`,
optionally with fractional seconds, always suffixed `Z`. -/
def isIso8601UtcZ (s : String) : Bool :=
  checkPattern s.data (isoCorePattern ++ [.lit 'Z']) ||
  checkPattern s.data (isoCorePattern ++ isoFracPattern ++ [.lit 'Z'])

/-- Field bounds a `DATETIME` value coming out of storage satisfies. -/
def Timestamp.wf (t : Timestamp) : Prop :=
  t.year < 10000 ∧ t.month < 100 ∧ t.day < 100 ∧ t.hour < 100 ∧
  t.minute < 100 ∧ t.second < 100 ∧ t.microsecond < 1000000

instance (t : Timestamp) : Decidable t.wf := by
  unfold Timestamp.wf; infer_instance

/-! ## Order infrastructure -/

theorem lexLe_total : ∀ x y : List Nat, lexLe x y = true ∨ lexLe y x = true := by
  intro x
  induction x with
  | nil => intro y; left; cases y <;> rfl
  | cons a as ih =>
    intro y
    cases y with
    | nil => right; rfl
    | cons b bs =>
      rcases Nat.lt_trichotomy a b with h | h | h
      · left; simp [lexLe, h]
      · subst h
        rcases ih bs with h2 | h2
        · left; simp [lexLe, h2]
        · right; simp [lexLe, h2]
      · right; simp [lexLe, h]

theorem lexLe_trans :
    ∀ x y z : List Nat, lexLe x y = true → lexLe y z = true → lexLe x z = true := by
  intro x
  induction x with
  | nil => intro y z _ _; cases z <;> rfl
  | cons a as ih =>
    intro y z hxy hyz
    cases y with
    | nil => simp [lexLe] at hxy
    | cons b bs =>
      cases z with
      | nil => simp [lexLe] at hyz
      | cons c cs =>
        simp only [lexLe, Bool.or_eq_true, Bool.and_eq_true, decide_eq_true_eq,
          beq_iff_eq] at hxy hyz ⊢
        rcases hxy with h1 | ⟨rfl, h1⟩
        · rcases hyz with h2 | ⟨rfl, h2⟩
          · left; omega
          · left; exact h1
        · rcases hyz with h2 | ⟨rfl, h2⟩
          · left; exact h2
          · right; exact ⟨rfl, ih bs cs h1 h2⟩

theorem clanLe_total (s : String) (a b : Clan) :
    clanLe s a b = true ∨ clanLe s b a = true := by
  unfold clanLe
  split
  · rcases le_total a.name b.name with h | h
    · left; exact decide_eq_true h
    · right; exact decide_eq_true h
  · exact lexLe_total _ _

theorem clanLe_trans (s : String) (a b c : Clan) :
    clanLe s a b = true → clanLe s b c = true → clanLe s a c = true := by
  unfold clanLe
  split
  · intro h1 h2
    exact decide_eq_true (le_trans (of_decide_eq_true h1) (of_decide_eq_true h2))
  · exact lexLe_trans _ _ _

theorem insertSorted_perm {α : Type} (le : α → α → Bool) (a : α) (l : List α) :
    (insertSorted le a l).Perm (a :: l) := by
  induction l with
  | nil => exact List.Perm.refl _
  | cons b bs ih =>
    simp only [insertSorted]
    split
    · exact List.Perm.refl _
    · exact (ih.cons b).trans (List.Perm.swap a b bs)

theorem sortBy_perm {α : Type} (le : α → α → Bool) (l : List α) :
    (sortBy le l).Perm l := by
  induction l with
  | nil => exact List.Perm.refl _
  | cons a as ih => exact (insertSorted_perm le a (sortBy le as)).trans (ih.cons a)

theorem insertSorted_pairwise {α : Type} {le : α → α → Bool}
    (htrans : ∀ a b c, le a b = true → le b c = true → le a c = true)
    (htotal : ∀ a b, le a b = true ∨ le b a = true)
    (a : α) {l : List α} (hl : l.Pairwise (fun x y => le x y = true)) :
    (insertSorted le a l).Pairwise (fun x y => le x y = true) := by
  induction l with
  | nil => simp [insertSorted]
  | cons b bs ih =>
    rcases List.pairwise_cons.mp hl with ⟨hb, hbs⟩
    simp only [insertSorted]
    split
    case isTrue h =>
      refine List.pairwise_cons.mpr ⟨?_, hl⟩
      intro x hx
      rcases List.mem_cons.mp hx with rfl | hx
      · exact h
      · exact htrans a b x h (hb x hx)
    case isFalse h =>
      refine List.pairwise_cons.mpr ⟨?_, ih hbs⟩
      intro x hx
      have hx2 := (insertSorted_perm le a bs).mem_iff.mp hx
      rcases List.mem_cons.mp hx2 with rfl | hx2
      · rcases htotal x b with h2 | h2
        · exact absurd h2 h
        · exact h2
      · exact hb x hx2

theorem sortBy_pairwise {α : Type} {le : α → α → Bool}
    (htrans : ∀ a b c, le a b = true → le b c = true → le a c = true)
    (htotal : ∀ a b, le a b = true ∨ le b a = true)
    (l : List α) : (sortBy le l).Pairwise (fun x y => le x y = true) := by
  induction l with
  | nil => simp [sortBy]
  | cons a as ih => exact insertSorted_pairwise htrans htotal a ih

theorem get_clans_perm (db : List Clan) (region : Option String)
    (sortArg : Option String) :
    (get_clans db region sortArg).Perm (regionFiltered db region) := by
  unfold get_clans
  dsimp only
  split
  · exact sortBy_perm _ _
  · exact List.Perm.refl _

theorem get_clans_sorted (db : List Clan) (region : Option String)
    (sortArg : Option String)
    (h : (sortArg.getD "created_at" == "created_at"
          || sortArg.getD "created_at" == "name") = true) :
    (get_clans db region sortArg).Pairwise
      (fun x y => clanLe (sortArg.getD "created_at") x y = true) := by
  unfold get_clans
  dsimp only
  split
  · exact sortBy_pairwise (clanLe_trans _) (clanLe_total _) _
  · next hn => exact absurd h hn

/-! ## C1: list ordering -/

/-- C1 (counterexample): the claim says any unrecognized `sort` value orders
the rows by `created_at`; but for `sort=bogus` the handler appends no
`ORDER BY` at all (src/app.py line 135), so a table stored newest-first comes
back newest-first, not in non-decreasing `created_at` order. -/
theorem C1_invalid_sort_not_created_at_ordered :
    ¬ (get_clans
        [⟨"i1", "x", none, ⟨2025, 1, 1, 0, 0, 0, 0⟩⟩,
         ⟨"i2", "y", none, ⟨2024, 1, 1, 0, 0, 0, 0⟩⟩]
        none (some "bogus")).Pairwise
      (fun a b => Timestamp.le a.created_at b.created_at = true) := by
  decide

/-- C1 (amended): rows of the list handler are in non-decreasing `name` order
when `sort=name`, and in non-decreasing `created_at` order when `sort` is
absent (it defaults to `created_at`) or equals `created_at`; for any other
`sort` value no `ORDER BY` clause is emitted, and the rows come back in
storage order after filtering. -/
theorem C1_list_sort_order (db : List Clan) (region : Option String)
    (sortArg : Option String) :
    (sortArg = some "name" →
      (get_clans db region sortArg).Pairwise
        (fun a b => decide (a.name ≤ b.name) = true))
    ∧ ((sortArg = none ∨ sortArg = some "created_at") →
      (get_clans db region sortArg).Pairwise
        (fun a b => Timestamp.le a.created_at b.created_at = true))
    ∧ (∀ s, sortArg = some s → s ≠ "name" → s ≠ "created_at" →
      get_clans db region sortArg = regionFiltered db region) := by
  refine ⟨?_, ?_, ?_⟩
  · rintro rfl
    have h := get_clans_sorted db region (some "name") (by rfl)
    exact h.imp (fun hab => by simpa [clanLe] using hab)
  · rintro (rfl | rfl)
    · have h := get_clans_sorted db region none (by rfl)
      exact h.imp (fun hab => by simpa [clanLe] using hab)
    · have h := get_clans_sorted db region (some "created_at") (by rfl)
      exact h.imp (fun hab => by simpa [clanLe] using hab)
  · rintro s rfl hn hc
    unfold get_clans
    dsimp only
    rw [if_neg (by simp [Bool.or_eq_true, beq_iff_eq, hn, hc])]

/-- C1 (witness): the amended theorem applied at a two-row table listed with
`sort=name`. -/
theorem C1_list_sort_order_witness :
    (get_clans
      [⟨"i1", "b", none, ⟨2024, 1, 1, 0, 0, 0, 0⟩⟩,
       ⟨"i2", "a", none, ⟨2024, 1, 2, 0, 0, 0, 0⟩⟩]
      none (some "name")).Pairwise
      (fun a b => decide (a.name ≤ b.name) = true) :=
  (C1_list_sort_order
    [⟨"i1", "b", none, ⟨2024, 1, 1, 0, 0, 0, 0⟩⟩,
     ⟨"i2", "a", none, ⟨2024, 1, 2, 0, 0, 0, 0⟩⟩]
    none (some "name")).1 rfl

/-! ## C3: region filter -/

/-- C3 (counterexample): the claim says `region=X` filters exactly, including
`X` the empty string; but an empty `region` parameter is falsy in
`if region:` (src/app.py line 131), so no filter is applied and a row whose
region is `US` (not the empty string) is returned. -/
theorem C3_empty_region_not_filtered :
    get_clans [⟨"i1", "n", some "US", ⟨2024, 1, 1, 0, 0, 0, 0⟩⟩] (some "") none
      = [⟨"i1", "n", some "US", ⟨2024, 1, 1, 0, 0, 0, 0⟩⟩]
    ∧ (⟨"i1", "n", some "US", ⟨2024, 1, 1, 0, 0, 0, 0⟩⟩ : Clan).region
      ≠ some "" := by
  decide

/-- C3 (amended): a nonempty `region=X` query returns exactly the clans whose
`region` equals `X` by exact string comparison; an empty `region` value is
treated like an absent one and applies no filter. -/
theorem C3_region_exact_filter (db : List Clan) (r : String)
    (sortArg : Option String) :
    (r ≠ "" → ∀ c : Clan,
      c ∈ get_clans db (some r) sortArg ↔ c ∈ db ∧ c.region = some r)
    ∧ get_clans db (some "") sortArg = get_clans db none sortArg := by
  constructor
  · intro hr c
    rw [(get_clans_perm db (some r) sortArg).mem_iff]
    unfold regionFiltered
    dsimp only
    rw [if_neg (by simp [String.isEmpty_iff, hr])]
    simp [List.mem_filter]
  · rfl

/-- C3 (witness): the amended theorem applied at a one-row table queried with
its own region. -/
theorem C3_region_exact_filter_witness :
    (⟨"i1", "n", some "US", ⟨2024, 1, 1, 0, 0, 0, 0⟩⟩ : Clan) ∈
      get_clans [⟨"i1", "n", some "US", ⟨2024, 1, 1, 0, 0, 0, 0⟩⟩]
        (some "US") none
    ↔ (⟨"i1", "n", some "US", ⟨2024, 1, 1, 0, 0, 0, 0⟩⟩ : Clan) ∈
        [(⟨"i1", "n", some "US", ⟨2024, 1, 1, 0, 0, 0, 0⟩⟩ : Clan)]
      ∧ (⟨"i1", "n", some "US", ⟨2024, 1, 1, 0, 0, 0, 0⟩⟩ : Clan).region
        = some "US" :=
  (C3_region_exact_filter [⟨"i1", "n", some "US", ⟨2024, 1, 1, 0, 0, 0, 0⟩⟩]
    "US" none).1 (by decide) _

/-! ## Create-path helpers -/

theorem validateCreate_accepted {kvs : List (String × Json)} {v : Json}
    (h : List.lookup "name" kvs = some v) (ht : v.truthy = true) :
    validateCreate (some (Json.obj kvs))
      = .accepted v ((List.lookup "region" kvs).getD Json.null) := by
  cases kvs with
  | nil => simp [List.lookup] at h
  | cons p ps =>
    have hobj : (Json.obj (p :: ps)).truthy = true := by simp [Json.truthy]
    simp [validateCreate, hobj, h, ht]

theorem create_clan_rejected {body : Option Json}
    (h : validateCreate body = .rejected) (freshId : String) (now : Timestamp)
    (db : List Clan) :
    create_clan body freshId now db
      = ⟨some (400, errBody "Clan name is required"), db, false⟩ := by
  unfold create_clan
  rw [h]

theorem find?_append_right {α : Type} (p : α → Bool) (l1 l2 : List α)
    (h : ∀ a ∈ l1, p a = false) :
    (l1 ++ l2).find? p = l2.find? p := by
  induction l1 with
  | nil => rfl
  | cons a as ih =>
    rw [List.cons_append,
      List.find?_cons_of_neg _ (by simp [h a (List.mem_cons_self a as)])]
    exact ih (fun b hb => h b (List.mem_cons_of_mem a hb))

/-! ## C2: create-side validation -/

/-- C2: a create request whose body is missing or not valid JSON
(`request.get_json()` gives no object), or whose `name` field is absent or the
empty string, is answered 400 with `\x7b"error": "Clan name is required"\x7d`
before any storage access, and the table is unchanged. -/
theorem C2_create_validation_rejects (kvs : List (String × Json))
    (freshId : String) (now : Timestamp) (db : List Clan) :
    create_clan none freshId now db
      = ⟨some (400, errBody "Clan name is required"), db, false⟩
    ∧ (List.lookup "name" kvs = none →
        create_clan (some (Json.obj kvs)) freshId now db
          = ⟨some (400, errBody "Clan name is required"), db, false⟩)
    ∧ (List.lookup "name" kvs = some (Json.str "") →
        create_clan (some (Json.obj kvs)) freshId now db
          = ⟨some (400, errBody "Clan name is required"), db, false⟩) := by
  refine ⟨rfl, ?_, ?_⟩
  · intro h
    refine create_clan_rejected ?_ freshId now db
    cases kvs with
    | nil => rfl
    | cons p ps => simp [validateCreate, Json.truthy, h]
  · intro h
    refine create_clan_rejected ?_ freshId now db
    cases kvs with
    | nil => simp [List.lookup] at h
    | cons p ps => simp [validateCreate, Json.truthy, h, String.isEmpty_iff]

/-- C2 (witness): the rejection theorem applied at a body whose `name` field
is the empty string. -/
theorem C2_create_validation_rejects_witness :
    create_clan (some (Json.obj [("name", Json.str "")])) "id1"
      ⟨2024, 1, 1, 0, 0, 0, 0⟩ []
      = ⟨some (400, errBody "Clan name is required"), [], false⟩ :=
  (C2_create_validation_rejects [("name", Json.str "")] "id1"
    ⟨2024, 1, 1, 0, 0, 0, 0⟩ []).2.2 rfl

/-! ## C10: truthiness-only validation -/

/-- C10 (counterexample): the claim says every truthy non-string `name` value
— including a non-empty array — passes validation and is inserted as the
clan's name; for the body `\x7b"name": [1]\x7d` validation does pass, but the
driver cannot convert a list parameter, `cursor.execute` raises a
`mysql.connector.Error`, and the handler rolls back and answers 500 with the
table unchanged — no row with that name is ever inserted. -/
theorem C10_array_name_not_inserted :
    validateCreate (some (Json.obj [("name", Json.arr [Json.num 1])]))
      = .accepted (Json.arr [Json.num 1]) Json.null
    ∧ create_clan (some (Json.obj [("name", Json.arr [Json.num 1])])) "id1"
        ⟨2024, 1, 1, 0, 0, 0, 0⟩ []
      = ⟨some (500, errBody "Database operation failed"), [], true⟩ :=
  ⟨rfl, rfl⟩

/-- C10 (amended): the create handler validates `name` only by Python
truthiness, so any truthy non-string JSON value passes validation and is bound
as the `name` parameter of the insert; when the driver can convert the value
(e.g. a number, stored as its decimal text) the row is inserted and the
handler answers 201, but when it cannot (e.g. a non-empty array) the execute
raises, the handler answers 500, and no row is inserted. -/
theorem C10_truthiness_validation (kvs : List (String × Json)) (v : Json)
    (freshId : String) (now : Timestamp) (db : List Clan) :
    List.lookup "name" kvs = some v → v.truthy = true →
    (∀ s, v ≠ Json.str s) →
    validateCreate (some (Json.obj kvs))
      = .accepted v ((List.lookup "region" kvs).getD Json.null)
    ∧ (∀ n : Int, v = Json.num n → List.lookup "region" kvs = none →
        create_clan (some (Json.obj kvs)) freshId now db
          = ⟨some (201, Json.obj [("id", Json.str freshId),
              ("message", Json.str "Clan created successfully")]),
             db ++ [⟨freshId, toString n, none, now⟩], true⟩)
    ∧ (∀ xs, v = Json.arr xs → List.lookup "region" kvs = none →
        create_clan (some (Json.obj kvs)) freshId now db
          = ⟨some (500, errBody "Database operation failed"), db, true⟩) := by
  intro h ht _
  have hval := validateCreate_accepted h ht
  refine ⟨hval, ?_, ?_⟩
  · rintro n rfl hr
    rw [hr, Option.getD_none] at hval
    unfold create_clan
    rw [hval]
    rfl
  · rintro xs rfl hr
    rw [hr, Option.getD_none] at hval
    unfold create_clan
    rw [hval]
    rfl

/-- C10 (witness): the amended theorem applied at the body
`\x7b"name": 123\x7d`: validation passes and the row is inserted with the
number's decimal text as its name. -/
theorem C10_truthiness_validation_witness :
    validateCreate (some (Json.obj [("name", Json.num 123)]))
      = .accepted (Json.num 123) Json.null
    ∧ create_clan (some (Json.obj [("name", Json.num 123)])) "id1"
        ⟨2024, 1, 1, 0, 0, 0, 0⟩ []
      = ⟨some (201, Json.obj [("id", Json.str "id1"),
          ("message", Json.str "Clan created successfully")]),
         [⟨"id1", "123", none, ⟨2024, 1, 1, 0, 0, 0, 0⟩⟩], true⟩ :=
  ⟨(C10_truthiness_validation [("name", Json.num 123)] (Json.num 123) "id1"
      ⟨2024, 1, 1, 0, 0, 0, 0⟩ [] rfl rfl (fun _ h => nomatch h)).1,
   (C10_truthiness_validation [("name", Json.num 123)] (Json.num 123) "id1"
      ⟨2024, 1, 1, 0, 0, 0, 0⟩ [] rfl rfl (fun _ h => nomatch h)).2.1
     123 rfl rfl⟩

/-! ## C6: create/get round-trip -/

/-- C6: a create request that succeeds (201 with a fresh identifier) is
immediately readable back: get-by-id on that identifier answers 200 with the
`name` and `region` supplied at creation, the region being JSON null when it
was absent (or supplied as null). -/
theorem C6_create_get_roundtrip (kvs : List (String × Json)) (freshId : String)
    (now : Timestamp) (db : List Clan) (n : String) :
    List.lookup "name" kvs = some (Json.str n) → n ≠ "" →
    (List.lookup "region" kvs = none ∨ List.lookup "region" kvs = some Json.null
      ∨ ∃ r, List.lookup "region" kvs = some (Json.str r)) →
    (∀ c ∈ db, c.id ≠ freshId) →
    (create_clan (some (Json.obj kvs)) freshId now db).response
      = some (201, Json.obj [("id", Json.str freshId),
          ("message", Json.str "Clan created successfully")])
    ∧ get_clanResponse (create_clan (some (Json.obj kvs)) freshId now db).db
        freshId
      = (200, Json.obj [("id", Json.str freshId), ("name", Json.str n),
          ("region", (List.lookup "region" kvs).getD Json.null),
          ("created_at", Json.str (renderCreatedAt now))]) := by
  intro hn hne hreg hfresh
  have ht : (Json.str n).truthy = true := by
    have hf : n.isEmpty = false := by
      rcases h' : n.isEmpty
      · rfl
      · exact absurd ((String.isEmpty_iff n).mp h') hne
    simp [Json.truthy, hf]
  have hdbfind : ∀ reg : Option String,
      get_clanResponse (db ++ [⟨freshId, n, reg, now⟩]) freshId
        = (200, renderClan ⟨freshId, n, reg, now⟩) := by
    intro reg
    unfold get_clanResponse
    rw [find?_append_right _ db _
        (fun c hc => beq_eq_false_iff_ne.mpr (hfresh c hc)),
      List.find?_cons_of_pos _ (by simp)]
  have hval := validateCreate_accepted hn ht
  rcases hreg with hr | hr | ⟨r, hr⟩
  · rw [hr] at hval
    rw [Option.getD_none] at hval
    have hout : create_clan (some (Json.obj kvs)) freshId now db
        = ⟨some (201, Json.obj [("id", Json.str freshId),
            ("message", Json.str "Clan created successfully")]),
           db ++ [⟨freshId, n, none, now⟩], true⟩ := by
      unfold create_clan
      rw [hval]
      rfl
    rw [hout, hr]
    exact ⟨rfl, hdbfind none⟩
  · rw [hr] at hval
    rw [Option.getD_some] at hval
    have hout : create_clan (some (Json.obj kvs)) freshId now db
        = ⟨some (201, Json.obj [("id", Json.str freshId),
            ("message", Json.str "Clan created successfully")]),
           db ++ [⟨freshId, n, none, now⟩], true⟩ := by
      unfold create_clan
      rw [hval]
      rfl
    rw [hout, hr]
    exact ⟨rfl, hdbfind none⟩
  · rw [hr] at hval
    rw [Option.getD_some] at hval
    have hout : create_clan (some (Json.obj kvs)) freshId now db
        = ⟨some (201, Json.obj [("id", Json.str freshId),
            ("message", Json.str "Clan created successfully")]),
           db ++ [⟨freshId, n, some r, now⟩], true⟩ := by
      unfold create_clan
      rw [hval]
      rfl
    rw [hout, hr]
    exact ⟨rfl, hdbfind (some r)⟩

/-- C6 (witness): the round-trip theorem applied at the concrete body
`\x7b"name": "Phoenix", "region": "US"\x7d` against an empty table. -/
theorem C6_create_get_roundtrip_witness :
    (create_clan
      (some (Json.obj [("name", Json.str "Phoenix"), ("region", Json.str "US")]))
      "id1" ⟨2024, 1, 1, 0, 0, 0, 0⟩ []).response
      = some (201, Json.obj [("id", Json.str "id1"),
          ("message", Json.str "Clan created successfully")])
    ∧ get_clanResponse
        (create_clan
          (some (Json.obj
            [("name", Json.str "Phoenix"), ("region", Json.str "US")]))
          "id1" ⟨2024, 1, 1, 0, 0, 0, 0⟩ []).db "id1"
      = (200, Json.obj [("id", Json.str "id1"), ("name", Json.str "Phoenix"),
          ("region", Json.str "US"),
          ("created_at", Json.str (renderCreatedAt ⟨2024, 1, 1, 0, 0, 0, 0⟩))]) :=
  C6_create_get_roundtrip
    [("name", Json.str "Phoenix"), ("region", Json.str "US")] "id1"
    ⟨2024, 1, 1, 0, 0, 0, 0⟩ [] "Phoenix" rfl (by decide)
    (Or.inr (Or.inr ⟨"US", rfl⟩)) (by simp)

/-! ## C5: delete semantics -/

/-- C5: deleting an identifier with no matching row answers 404 and leaves the
table unchanged; deleting with exactly one matching row removes exactly that
row, answers 200 with the success message, and afterwards both get-by-id and a
second delete of the same identifier answer 404. -/
theorem C5_delete_semantics (db : List Clan) (id : String) :
    ((∀ c ∈ db, c.id ≠ id) →
      delete_clan db id = ((404, errBody "Clan not found"), db))
    ∧ (db.countP (fun c => c.id == id) = 1 →
        (delete_clan db id).1
          = (200, Json.obj [("message", Json.str "Clan deleted successfully")])
        ∧ (delete_clan db id).2 = db.filter (fun c => !(c.id == id))
        ∧ get_clanResponse (delete_clan db id).2 id
          = (404, errBody "Clan not found")
        ∧ (delete_clan (delete_clan db id).2 id).1
          = (404, errBody "Clan not found")) := by
  constructor
  · intro h
    have hc : db.countP (fun c => c.id == id) = 0 :=
      List.countP_eq_zero.mpr (fun c hc => by
        simp [beq_eq_false_iff_ne.mpr (h c hc)])
    unfold delete_clan
    dsimp only
    rw [hc]
    rfl
  · intro h1
    have hne : (db.countP (fun c => c.id == id) == 0) = false := by
      rw [h1]; rfl
    have hdel : (delete_clan db id).2 = db.filter (fun c => !(c.id == id)) := by
      unfold delete_clan
      dsimp only
      rw [hne]
      rfl
    have hnomatch : ∀ c ∈ db.filter (fun c => !(c.id == id)),
        (c.id == id) = false := by
      intro c hc
      have := (List.mem_filter.mp hc).2
      simpa using this
    refine ⟨?_, hdel, ?_, ?_⟩
    · unfold delete_clan
      dsimp only
      rw [hne]
      rfl
    · rw [hdel]
      unfold get_clanResponse
      rw [List.find?_eq_none.mpr (fun c hc => by simp [hnomatch c hc])]
    · rw [hdel]
      have hzero : (db.filter (fun c => !(c.id == id))).countP
          (fun c => c.id == id) = 0 :=
        List.countP_eq_zero.mpr (fun c hc => by simp [hnomatch c hc])
      unfold delete_clan
      dsimp only
      rw [hzero]
      rfl

/-- C5 (witness): the delete theorem applied at a one-row table holding the
deleted identifier. -/
theorem C5_delete_semantics_witness :
    (delete_clan [⟨"idA", "n", none, ⟨2024, 1, 1, 0, 0, 0, 0⟩⟩] "idA").1
      = (200, Json.obj [("message", Json.str "Clan deleted successfully")])
    ∧ (delete_clan [⟨"idA", "n", none, ⟨2024, 1, 1, 0, 0, 0, 0⟩⟩] "idA").2
      = List.filter (fun c => !(c.id == "idA"))
          [⟨"idA", "n", none, ⟨2024, 1, 1, 0, 0, 0, 0⟩⟩]
    ∧ get_clanResponse
        (delete_clan [⟨"idA", "n", none, ⟨2024, 1, 1, 0, 0, 0, 0⟩⟩] "idA").2
        "idA"
      = (404, errBody "Clan not found")
    ∧ (delete_clan
        (delete_clan [⟨"idA", "n", none, ⟨2024, 1, 1, 0, 0, 0, 0⟩⟩] "idA").2
        "idA").1
      = (404, errBody "Clan not found") :=
  (C5_delete_semantics [⟨"idA", "n", none, ⟨2024, 1, 1, 0, 0, 0, 0⟩⟩]
    "idA").2 (by decide)

/-! ## C4: storage-fault handling in the write handlers -/

/-- C4 (counterexample): the claim says every storage failure in create/delete
— including one while acquiring the pooled connection — is answered 500 with
`\x7b"error": "Database operation failed"\x7d` after a rollback; but when
`db = get_db()` itself raises, the local `db` is unbound, the `except` clause's
`db.rollback()` (src/app.py lines 111 and 200) raises `UnboundLocalError`, and
the handler produces an unhandled exception instead of that JSON body. -/
theorem C4_connect_fault_escapes_handler :
    writeHandlerOnFault FaultPoint.atConnect = FaultResult.unboundLocalError
    ∧ FaultResult.unboundLocalError
      ≠ FaultResult.handled 500 (errBody "Database operation failed") true
    ∧ FaultResult.unboundLocalError
      ≠ FaultResult.handled 500 (errBody "Database operation failed") false :=
  ⟨rfl, fun h => FaultResult.noConfusion h, fun h => FaultResult.noConfusion h⟩

/-- C4 (amended): a storage failure while opening the cursor or executing the
statement is caught, the unit of work is rolled back, and the handler answers
500 with `\x7b"error": "Database operation failed"\x7d`; a failure while
acquiring the pooled connection, however, makes the `except` clause itself
raise (the local `db` is unbound), so the request ends in an unhandled
exception rather than that response. -/
theorem C4_storage_fault_handling (f : FaultPoint) :
    (f = FaultPoint.atCursor ∨ f = FaultPoint.atExecute →
      writeHandlerOnFault f
        = FaultResult.handled 500 (errBody "Database operation failed") true)
    ∧ (f = FaultPoint.atConnect →
      writeHandlerOnFault f = FaultResult.unboundLocalError) := by
  constructor
  · rintro (rfl | rfl) <;> rfl
  · rintro rfl; rfl

/-- C4 (witness): the fault theorem applied at a fault during
`cursor.execute`. -/
theorem C4_storage_fault_handling_witness :
    writeHandlerOnFault FaultPoint.atExecute
      = FaultResult.handled 500 (errBody "Database operation failed") true :=
  (C4_storage_fault_handling FaultPoint.atExecute).1 (Or.inr rfl)

/-! ## C9: connection lifecycle -/

theorem runHandlerCalls_cached (m : Nat) (c : Nat) (p : PoolState) :
    runHandlerCalls m ⟨some c⟩ p = (List.replicate m c, ⟨some c⟩, p) := by
  induction m with
  | zero => rfl
  | succ k ih => simp [runHandlerCalls, get_db, ih, List.replicate]

/-- C9: during one request every `get_db` call after the first returns the
connection cached in `g` (so at most one pooled connection is acquired, and
repeated acquisitions all yield the same connection), and the unconditional
teardown returns it to the pool, leaving the set of checked-out connections
exactly as before the request on every exit path. -/
theorem C9_connection_lifecycle (n : Nat) (p : PoolState) :
    (runHandlerCalls n ⟨none⟩ p).1 = List.replicate n p.nextConn
    ∧ (runHandlerCalls n ⟨none⟩ p).2.2.checkedOut.length
      ≤ p.checkedOut.length + 1
    ∧ (runRequest n p).checkedOut = p.checkedOut := by
  cases n with
  | zero => exact ⟨rfl, Nat.le_succ _, rfl⟩
  | succ k =>
    have hrun : runHandlerCalls (k + 1) (⟨none⟩ : GCtx) p
        = (List.replicate (k + 1) p.nextConn, ⟨some p.nextConn⟩,
           ⟨p.nextConn + 1, p.nextConn :: p.checkedOut⟩) := by
      simp [runHandlerCalls, get_db, runHandlerCalls_cached, List.replicate]
    refine ⟨by rw [hrun], by rw [hrun]; simp, ?_⟩
    unfold runRequest
    rw [hrun]
    simp [close_db, List.erase_cons_head]

/-! ## C7: parameterization and the sort allow-list -/

/-- C7: the list handler's SQL text is always one of six fixed strings — the
base query, optionally the one `WHERE region = %s` clause, optionally an
`ORDER BY` naming one of the two allow-listed columns — so a `sort` value
outside the allow-list is never interpolated into the text (such requests get
no `ORDER BY` at all), the region value travels only in the bound-parameter
list, and the create/get/delete statements are fixed strings with every
client-supplied value bound as a parameter. -/
theorem C7_queries_parameterized (region : Option String)
    (sortArg : Option String) (id clan_id : String) (nv rv : Json) :
    ((buildListQuery region sortArg).1 ∈
      ["SELECT id, name, region, created_at FROM clans",
       "SELECT id, name, region, created_at FROM clans ORDER BY created_at",
       "SELECT id, name, region, created_at FROM clans ORDER BY name",
       "SELECT id, name, region, created_at FROM clans WHERE region = %s",
       "SELECT id, name, region, created_at FROM clans WHERE region = %s ORDER BY created_at",
       "SELECT id, name, region, created_at FROM clans WHERE region = %s ORDER BY name"])
    ∧ (∀ s, sortArg = some s → s ≠ "created_at" → s ≠ "name" →
        (buildListQuery region sortArg).1 ∈
          ["SELECT id, name, region, created_at FROM clans",
           "SELECT id, name, region, created_at FROM clans WHERE region = %s"])
    ∧ (∀ r, region = some r → r.isEmpty = false →
        (buildListQuery region sortArg).2 = [r])
    ∧ (region = none ∨ region = some "" →
        (buildListQuery region sortArg).2 = [])
    ∧ createStmt clan_id nv rv
      = ("INSERT INTO clans (id, name, region, created_at) VALUES (%s, %s, %s, UTC_TIMESTAMP())",
         [Json.str clan_id, nv, rv])
    ∧ getStmt id
      = ("SELECT id, name, region, created_at FROM clans WHERE id = %s", [id])
    ∧ deleteStmt id = ("DELETE FROM clans WHERE id = %s", [id]) := by
  refine ⟨?_, ?_, ?_, ?_, rfl, rfl, rfl⟩
  · rcases region with _ | r
    · unfold buildListQuery
      dsimp only
      cases hs : (sortArg.getD "created_at" == "created_at"
          || sortArg.getD "created_at" == "name") with
      | false =>
        exact List.Mem.head _
      | true =>
        rcases (by simpa using hs :
            sortArg.getD "created_at" = "created_at"
            ∨ sortArg.getD "created_at" = "name") with heq | heq
        · rw [heq]
          exact List.Mem.tail _ (List.Mem.head _)
        · rw [heq]
          exact List.Mem.tail _ (List.Mem.tail _ (List.Mem.head _))
    · unfold buildListQuery
      dsimp only
      cases hr : r.isEmpty with
      | true =>
        cases hs : (sortArg.getD "created_at" == "created_at"
            || sortArg.getD "created_at" == "name") with
        | false =>
          exact List.Mem.head _
        | true =>
          rcases (by simpa using hs :
              sortArg.getD "created_at" = "created_at"
              ∨ sortArg.getD "created_at" = "name") with heq | heq
          · rw [heq]
            exact List.Mem.tail _ (List.Mem.head _)
          · rw [heq]
            exact List.Mem.tail _ (List.Mem.tail _ (List.Mem.head _))
      | false =>
        cases hs : (sortArg.getD "created_at" == "created_at"
            || sortArg.getD "created_at" == "name") with
        | false =>
          exact List.Mem.tail _ (List.Mem.tail _ (List.Mem.tail _
            (List.Mem.head _)))
        | true =>
          rcases (by simpa using hs :
              sortArg.getD "created_at" = "created_at"
              ∨ sortArg.getD "created_at" = "name") with heq | heq
          · rw [heq]
            exact List.Mem.tail _ (List.Mem.tail _ (List.Mem.tail _
              (List.Mem.tail _ (List.Mem.head _))))
          · rw [heq]
            exact List.Mem.tail _ (List.Mem.tail _ (List.Mem.tail _
              (List.Mem.tail _ (List.Mem.tail _ (List.Mem.head _)))))
  · rintro s rfl h1 h2
    have hcond : (s == "created_at" || s == "name") = false := by
      simp [beq_eq_false_iff_ne, h1, h2]
    unfold buildListQuery
    dsimp only [Option.getD_some]
    rw [hcond]
    rcases region with _ | r
    · exact List.Mem.head _
    · dsimp only
      cases hr : r.isEmpty with
      | true =>
        exact List.Mem.head _
      | false =>
        exact List.Mem.tail _ (List.Mem.head _)
  · rintro r rfl hr
    unfold buildListQuery
    dsimp only
    rw [hr]
    split <;> rfl
  · rintro (rfl | rfl)
    · unfold buildListQuery
      dsimp only
      split <;> rfl
    · unfold buildListQuery
      dsimp only
      split <;> rfl

/-- C7 (witness): the parameterization theorem applied at a request with an
unrecognized sort value and a nonempty region filter. -/
theorem C7_queries_parameterized_witness :
    (buildListQuery (some "TR") (some "bogus")).1 ∈
      ["SELECT id, name, region, created_at FROM clans",
       "SELECT id, name, region, created_at FROM clans WHERE region = %s"] :=
  (C7_queries_parameterized (some "TR") (some "bogus") "i" "c" Json.null
    Json.null).2.1 "bogus" rfl (by decide) (by decide)

/-! ## C8: created_at serialization -/

theorem checkPattern_append {xs ys : List Char} {ps qs : List PatItem}
    (hx : checkPattern xs ps = true) (hy : checkPattern ys qs = true) :
    checkPattern (xs ++ ys) (ps ++ qs) = true := by
  induction ps generalizing xs with
  | nil =>
    cases xs with
    | nil => simpa using hy
    | cons c cs => exact Bool.noConfusion hx
  | cons p ps ih =>
    cases xs with
    | nil => exact Bool.noConfusion hx
    | cons c cs =>
      cases p with
      | digit =>
        rcases (by simpa [checkPattern] using hx :
            c.isDigit = true ∧ checkPattern cs ps = true) with ⟨h1, h2⟩
        show (c.isDigit && checkPattern (cs ++ ys) (ps ++ qs)) = true
        rw [h1, ih h2]
        rfl
      | lit l =>
        rcases (by simpa [checkPattern] using hx :
            (c == l) = true ∧ checkPattern cs ps = true) with ⟨h1, h2⟩
        show ((c == l) && checkPattern (cs ++ ys) (ps ++ qs)) = true
        rw [h1, ih h2]
        rfl

theorem pad2_digits : ∀ n, n < 100 →
    checkPattern (pad2 n).data [PatItem.digit, PatItem.digit] = true := by
  decide

theorem pad4_digits {n : Nat} (h : n < 10000) :
    checkPattern (pad4 n).data
      [PatItem.digit, PatItem.digit, PatItem.digit, PatItem.digit] = true := by
  have h1 : n / 100 < 100 := by omega
  have h2 : n % 100 < 100 := by omega
  have hcat := checkPattern_append (pad2_digits _ h1) (pad2_digits _ h2)
  simpa [pad4, String.data_append] using hcat

theorem pad6_digits {n : Nat} (h : n < 1000000) :
    checkPattern (pad6 n).data
      [PatItem.digit, PatItem.digit, PatItem.digit, PatItem.digit,
       PatItem.digit, PatItem.digit] = true := by
  have h1 : n / 10000 < 100 := by omega
  have h2 : n / 100 % 100 < 100 := by omega
  have h3 : n % 100 < 100 := by omega
  have hcat := checkPattern_append
    (checkPattern_append (pad2_digits _ h1) (pad2_digits _ h2))
    (pad2_digits _ h3)
  simpa [pad6, String.data_append] using hcat

theorem isoformat_core {t : Timestamp} (hw : t.wf) (hm : t.microsecond = 0) :
    checkPattern t.isoformat.data isoCorePattern = true := by
  obtain ⟨hy, hmo, hd, hh, hmi, hs, _⟩ := hw
  have hdash : checkPattern (String.data "-") [PatItem.lit '-'] = true := by
    decide
  have hT : checkPattern (String.data "T") [PatItem.lit 'T'] = true := by
    decide
  have hcolon : checkPattern (String.data ":") [PatItem.lit ':'] = true := by
    decide
  have hA := checkPattern_append (pad4_digits hy) hdash
  have hB := checkPattern_append hA (pad2_digits _ hmo)
  have hC := checkPattern_append hB hdash
  have hD := checkPattern_append hC (pad2_digits _ hd)
  have hE := checkPattern_append hD hT
  have hF := checkPattern_append hE (pad2_digits _ hh)
  have hG := checkPattern_append hF hcolon
  have hH := checkPattern_append hG (pad2_digits _ hmi)
  have hI := checkPattern_append hH hcolon
  have hJ := checkPattern_append hI (pad2_digits _ hs)
  simpa [Timestamp.isoformat, hm, isoCorePattern, String.data_append,
    List.append_assoc] using hJ

theorem isoformat_frac {t : Timestamp} (hw : t.wf) (hm : t.microsecond ≠ 0) :
    checkPattern t.isoformat.data (isoCorePattern ++ isoFracPattern) = true := by
  have hus := hw.2.2.2.2.2.2
  obtain ⟨hy, hmo, hd, hh, hmi, hs, _⟩ := hw
  have hdash : checkPattern (String.data "-") [PatItem.lit '-'] = true := by
    decide
  have hT : checkPattern (String.data "T") [PatItem.lit 'T'] = true := by
    decide
  have hcolon : checkPattern (String.data ":") [PatItem.lit ':'] = true := by
    decide
  have hdot : checkPattern (String.data ".") [PatItem.lit '.'] = true := by
    decide
  have hA := checkPattern_append (pad4_digits hy) hdash
  have hB := checkPattern_append hA (pad2_digits _ hmo)
  have hC := checkPattern_append hB hdash
  have hD := checkPattern_append hC (pad2_digits _ hd)
  have hE := checkPattern_append hD hT
  have hF := checkPattern_append hE (pad2_digits _ hh)
  have hG := checkPattern_append hF hcolon
  have hH := checkPattern_append hG (pad2_digits _ hmi)
  have hI := checkPattern_append hH hcolon
  have hJ := checkPattern_append hI (pad2_digits _ hs)
  have hK := checkPattern_append hdot (pad6_digits hus)
  have hL := checkPattern_append hJ hK
  have hmb : (t.microsecond == 0) = false := by
    simpa using hm
  simpa [Timestamp.isoformat, hmb, isoCorePattern, isoFracPattern,
    String.data_append, List.append_assoc] using hL

theorem renderCreatedAt_iso {t : Timestamp} (hw : t.wf) :
    isIso8601UtcZ (renderCreatedAt t) = true := by
  have hZ : checkPattern (String.data "Z") [PatItem.lit 'Z'] = true := by
    decide
  unfold isIso8601UtcZ
  by_cases hm : t.microsecond = 0
  · have hcore := checkPattern_append (isoformat_core hw hm) hZ
    have : checkPattern (renderCreatedAt t).data
        (isoCorePattern ++ [PatItem.lit 'Z']) = true := by
      simpa [renderCreatedAt, String.data_append] using hcore
    simp [this]
  · have hfrac := checkPattern_append (isoformat_frac hw hm) hZ
    have hgoal : checkPattern (renderCreatedAt t).data
        (isoCorePattern ++ (isoFracPattern ++ [PatItem.lit 'Z'])) = true := by
      simpa [renderCreatedAt, String.data_append, List.append_assoc] using hfrac
    simp [hgoal]

theorem regionFiltered_subset (db : List Clan) (region : Option String) :
    ∀ c ∈ regionFiltered db region, c ∈ db := by
  intro c hc
  unfold regionFiltered at hc
  rcases region with _ | r
  · exact hc
  · dsimp only at hc
    split at hc
    · exact hc
    · exact (List.mem_filter.mp hc).1

/-- C8: every `created_at` value rendered by the list and get-by-id handlers
is the stored timestamp's `isoformat()` text suffixed `Z` — plain string
formatting, no timezone conversion — and that string matches
`YYYY-MM-DDTHH:MM:SS`, with six fractional digits when the microsecond field
is nonzero, always ending in `Z`. -/
theorem C8_created_at_serialization (db : List Clan)
    (region sortArg : Option String) (id : String)
    (hwf : ∀ c ∈ db, c.created_at.wf) :
    (∀ c ∈ get_clans db region sortArg,
      isIso8601UtcZ (renderCreatedAt c.created_at) = true
      ∧ renderCreatedAt c.created_at = c.created_at.isoformat ++ "Z")
    ∧ (∀ c, db.find? (fun x => x.id == id) = some c →
        isIso8601UtcZ (renderCreatedAt c.created_at) = true
        ∧ renderCreatedAt c.created_at = c.created_at.isoformat ++ "Z") := by
  constructor
  · intro c hc
    have hmem : c ∈ db := regionFiltered_subset db region c
      ((get_clans_perm db region sortArg).mem_iff.mp hc)
    exact ⟨renderCreatedAt_iso (hwf c hmem), rfl⟩
  · intro c hfind
    exact ⟨renderCreatedAt_iso (hwf c (List.mem_of_find?_eq_some hfind)), rfl⟩

/-- C8 (witness): the serialization theorem applied at a one-row table with a
concrete timestamp. -/
theorem C8_created_at_serialization_witness :
    isIso8601UtcZ (renderCreatedAt ⟨2024, 5, 7, 8, 9, 10, 0⟩) = true
    ∧ renderCreatedAt ⟨2024, 5, 7, 8, 9, 10, 0⟩
      = Timestamp.isoformat ⟨2024, 5, 7, 8, 9, 10, 0⟩ ++ "Z" :=
  (C8_created_at_serialization
    [⟨"i1", "n", none, ⟨2024, 5, 7, 8, 9, 10, 0⟩⟩] none none "i1"
    (by decide)).1 ⟨"i1", "n", none, ⟨2024, 5, 7, 8, 9, 10, 0⟩⟩ (by decide)
